import Mathlib

/-!
Verification development for the procedural re-layout engine.

The definitions below are a shallow embedding of the TypeScript sources:
  - src/types.ts                      (data model)
  - src/components/ExportPSDNode.tsx  (override merge, geometry transform, physics solvers)
  - src/store/ProceduralContext.tsx   (reconcileTerminalState)
  - src/services/psdService.ts        (findLayerByPath, compositePayloadToCanvas)

Modelling conventions:
  - JavaScript numbers are modelled as rationals (ℚ).
  - A value that JavaScript may leave `undefined` is modelled as an `Option`;
    JavaScript truthiness of strings ("" is falsy), numbers (0 is falsy) and
    booleans is captured by the helpers strTruthy, numTruthy and boolTruthy.
  - Layer trees are encoded with the mutual types SLayer/SKids/SList and
    TLayer/TKids/TList so that all recursion is structural; root-level layer
    arrays are plain Lean lists, exactly as the root call sites use them.
-/

namespace PSD

/-- JavaScript truthiness of an optional string: undefined and "" are falsy. -/
def strTruthy : Option String → Bool
  | some s => !(s == "")
  | none => false

/-- JavaScript truthiness of an optional number: undefined and 0 are falsy. -/
def numTruthy : Option ℕ → Bool
  | some n => !(n == 0)
  | none => false

/-- JavaScript truthiness of an optional boolean: undefined and false are falsy. -/
def boolTruthy : Option Bool → Bool
  | some b => b
  | none => false

/-- The JavaScript `a || b` on optional strings. -/
def jsOrStr (a b : Option String) : Option String :=
  if strTruthy a then a else b

/-- The JavaScript `a || b` on optional numbers (generation ids). -/
def jsOrNum (a b : Option ℕ) : Option ℕ :=
  if numTruthy a then a else b

/-- The JavaScript nullish coalescing `a ?? b`. -/
def nullish {α : Type} (a b : Option α) : Option α :=
  match a with
  | some x => some x
  | none => b

/-- Does the first character list start with the second one. -/
def leadsWith : List Char → List Char → Bool
  | _, [] => true
  | [], _ :: _ => false
  | c :: cs, d :: ds => (c = d) && leadsWith cs ds

/-- Model of `String.prototype.startsWith` from JavaScript. -/
def jsStartsWith (s head : String) : Bool :=
  leadsWith s.toList head.toList

/-- Layer kind, `SerializableLayer.type` in src/types.ts: 'layer' | 'group' | 'generative'. -/
inductive LKind where
  | layer
  | group
  | generative
deriving DecidableEq, Repr

/-- Layout role of an override, src/types.ts: 'flow' | 'static' | 'overlay' | 'background'. -/
inductive Role where
  | flow
  | static
  | overlay
  | background
deriving DecidableEq, Repr

/-- A rectangle `{x, y, w, h}`; also used for layer `coords`. -/
structure Rect where
  x : ℚ
  y : ℚ
  w : ℚ
  h : ℚ
deriving DecidableEq, Repr

/-- Width/height pair used inside payload metrics. -/
structure Dims where
  w : ℚ
  h : ℚ
deriving DecidableEq, Repr

/-- The `metrics` record of a TransformedPayload. -/
structure Metrics where
  source : Dims
  target : Dims
deriving DecidableEq, Repr

/-- The `transform` record attached to a TransformedLayer. -/
structure Transform where
  scaleX : ℚ
  scaleY : ℚ
  offsetX : ℚ
  offsetY : ℚ
  rotation : Option ℚ
deriving DecidableEq, Repr

/-- LayerOverride from src/types.ts.  `individualScale` is declared required by the
TypeScript interface but the merge code guards it with `??`, so it is modelled as
an optional value. -/
structure LayerOverride where
  layerId : String
  xOffset : ℚ
  yOffset : ℚ
  individualScale : Option ℚ
  rotation : Option ℚ
  citedRule : Option String
  anchorIndex : Option ℕ
  layoutRole : Option Role
  linkedAnchorId : Option String
deriving DecidableEq, Repr

/-- Layout mode of a strategy. -/
inductive LayoutMode where
  | STANDARD
  | DISTRIBUTE_HORIZONTAL
  | DISTRIBUTE_VERTICAL
  | GRID
deriving DecidableEq, Repr

/-- The `physicsRules` record of a LayoutStrategy. -/
structure PhysicsRules where
  preventOverlap : Option Bool
  preventClipping : Option Bool
deriving DecidableEq, Repr

/-- The fields of LayoutStrategy (src/types.ts) read by the transform pipeline. -/
structure Strategy where
  suggestedScale : ℚ
  generativePrompt : Option String
  overrides : Option (List LayerOverride)
  directives : Option (List String)
  replaceLayerId : Option String
  isExplicitIntent : Option Bool
  layoutMode : Option LayoutMode
  physicsRules : Option PhysicsRules
deriving DecidableEq, Repr

/-- FeedbackStrategy from src/types.ts (reviewer constraints). -/
structure FeedbackStrategy where
  overrides : List LayerOverride
  isCommitted : Option Bool
deriving DecidableEq, Repr

/-! ### Override merge (ExportPSDNode.tsx, lines 604-634)

The smart merge builds `feedbackMap = new Map(feedback.overrides.map(o => [o.layerId, o]))`;
a JavaScript Map keeps the LAST entry written for a key, which `feedbackLookup`
models by searching the reversed list. -/

/-- Lookup in the feedback map: the last feedback override with the given layerId. -/
def feedbackLookup (fos : List LayerOverride) (id : String) : Option LayerOverride :=
  fos.reverse.find? (fun o => o.layerId == id)

/-- Merge manual geometry into a base override, strictly preserving layoutRole,
linkedAnchorId and citedRule from the original (lines 615-621). -/
def applyManual (original manual : LayerOverride) : LayerOverride :=
  { original with
    xOffset := manual.xOffset
    yOffset := manual.yOffset
    individualScale := nullish manual.individualScale original.individualScale }

/-- Step 1 of the smart merge: update one base override from the feedback map
(lines 612-624). -/
def resolveBaseOverride (fos : List LayerOverride) (original : LayerOverride) : LayerOverride :=
  match feedbackLookup fos original.layerId with
  | some manual => applyManual original manual
  | none => original

/-- Step 2 of the smart merge: append feedback overrides whose layerId is not
already present (lines 627-631); the accumulator grows as entries are pushed. -/
def appendNewOverrides (acc : List LayerOverride) : List LayerOverride → List LayerOverride
  | [] => acc
  | f :: rest =>
    if acc.any (fun m => m.layerId == f.layerId) then appendNewOverrides acc rest
    else appendNewOverrides (acc ++ [f]) rest

/-- The smart merge of base (analyst) overrides with feedback (reviewer) overrides. -/
def mergeOverrides (base fos : List LayerOverride) : List LayerOverride :=
  appendNewOverrides (base.map (resolveBaseOverride fos)) fos

/-- The effective strategy: overrides replaced by the merge result whenever a
non-empty feedback set is present (lines 603-634). -/
def effectiveStrategy (ai : Strategy) (fb : Option FeedbackStrategy) : Strategy :=
  match fb with
  | some f =>
    if 0 < f.overrides.length then
      { ai with overrides := some (mergeOverrides (ai.overrides.getD []) f.overrides) }
    else ai
  | none => ai

/-! ### Layer trees

SerializableLayer and TransformedLayer from src/types.ts.  The `children`
field is `children?: SerializableLayer[]`, i.e. an optional list; it is encoded
with the mutual types below so that recursion over trees stays structural. -/

mutual
inductive SLayer : Type where
  | mk (id name : String) (kind : LKind) (isVisible : Bool) (opacity : ℚ)
       (coords : Rect) (children : SKids)
inductive SKids : Type where
  | none
  | some (ls : SList)
inductive SList : Type where
  | nil
  | cons (head : SLayer) (tail : SList)
end

def SLayer.id : SLayer → String
  | .mk i _ _ _ _ _ _ => i

def SLayer.name : SLayer → String
  | .mk _ n _ _ _ _ _ => n

def SLayer.kind : SLayer → LKind
  | .mk _ _ k _ _ _ _ => k

def SLayer.isVisible : SLayer → Bool
  | .mk _ _ _ v _ _ _ => v

def SLayer.opacity : SLayer → ℚ
  | .mk _ _ _ _ o _ _ => o

def SLayer.coords : SLayer → Rect
  | .mk _ _ _ _ _ c _ => c

def SLayer.children : SLayer → SKids
  | .mk _ _ _ _ _ _ k => k

mutual
inductive TLayer : Type where
  | mk (id name : String) (kind : LKind) (isVisible : Bool) (opacity : ℚ)
       (coords : Rect) (transform : Transform)
       (layoutRole : Option Role) (linkedAnchorId : Option String)
       (citedRule : Option String) (generativePrompt : Option String)
       (children : TKids)
inductive TKids : Type where
  | none
  | some (ls : TList)
inductive TList : Type where
  | nil
  | cons (head : TLayer) (tail : TList)
end

def TLayer.id : TLayer → String
  | .mk i _ _ _ _ _ _ _ _ _ _ _ => i

def TLayer.name : TLayer → String
  | .mk _ n _ _ _ _ _ _ _ _ _ _ => n

def TLayer.kind : TLayer → LKind
  | .mk _ _ k _ _ _ _ _ _ _ _ _ => k

def TLayer.isVisible : TLayer → Bool
  | .mk _ _ _ v _ _ _ _ _ _ _ _ => v

def TLayer.opacity : TLayer → ℚ
  | .mk _ _ _ _ o _ _ _ _ _ _ _ => o

def TLayer.coords : TLayer → Rect
  | .mk _ _ _ _ _ c _ _ _ _ _ _ => c

def TLayer.transform : TLayer → Transform
  | .mk _ _ _ _ _ _ t _ _ _ _ _ => t

def TLayer.layoutRole : TLayer → Option Role
  | .mk _ _ _ _ _ _ _ r _ _ _ _ => r

def TLayer.linkedAnchorId : TLayer → Option String
  | .mk _ _ _ _ _ _ _ _ a _ _ _ => a

def TLayer.citedRule : TLayer → Option String
  | .mk _ _ _ _ _ _ _ _ _ c _ _ => c

def TLayer.generativePrompt : TLayer → Option String
  | .mk _ _ _ _ _ _ _ _ _ _ g _ => g

def TLayer.children : TLayer → TKids
  | .mk _ _ _ _ _ _ _ _ _ _ _ k => k

/-- Set the x position of a layer, updating `coords.x` and `transform.offsetX`
together, as every physics solver in the source does. -/
def setPosX (nx : ℚ) : TLayer → TLayer
  | .mk i n k v o c t r a cr g kids =>
    .mk i n k v o { c with x := nx } { t with offsetX := nx } r a cr g kids

/-- Set the y position of a layer, updating `coords.y` and `transform.offsetY`. -/
def setPosY (ny : ℚ) : TLayer → TLayer
  | .mk i n k v o c t r a cr g kids =>
    .mk i n k v o { c with y := ny } { t with offsetY := ny } r a cr g kids

/-- Set both positions of a layer (overlay and boundary solvers). -/
def setPosXY (nx ny : ℚ) : TLayer → TLayer
  | .mk i n k v o c t r a cr g kids =>
    .mk i n k v o { c with x := nx, y := ny } { t with offsetX := nx, offsetY := ny } r a cr g kids

/-! ### Geometry mapper and physics solvers (ExportPSDNode.tsx, lines 636-823) -/

/-- Inputs closed over by `transformLayers`: the source/target rectangles, the
effective strategy, the raw feedback, the generation gate and the source layer
list used by the overlay solver. -/
structure MapCtx where
  sourceRect : Rect
  targetRect : Rect
  strategy : Option Strategy
  feedback : Option FeedbackStrategy
  effectiveAllowed : Bool
  sourceLayers : List SLayer

/-- The global scale `strategy?.suggestedScale || 1.0` (line 641): an absent
strategy and a zero suggestedScale both fall back to 1. -/
def globalScaleOf (st : Option Strategy) : ℚ :=
  match st with
  | some s => if s.suggestedScale = 0 then 1 else s.suggestedScale
  | none => 1

/-- The override lookup `strategy?.overrides?.find(o => o.layerId === id)` (line 645). -/
def getOverride (st : Option Strategy) (i : String) : Option LayerOverride :=
  st.bind fun s => s.overrides.bind fun os => os.find? (fun o => o.layerId == i)

mutual
/-- The per-layer mapping step of `transformLayers` (lines 647-691):
source-relative reposition into the target rect, the generative wholesale
replacement, override application, and scaling of w/h by the layer scale.
An absent `individualScale` is treated as 1 (the TypeScript interface declares
the field required, so the multiplication never actually sees an absent value). -/
def mapLayer (ctx : MapCtx) (pdx pdy : ℚ) : SLayer → TLayer
  | .mk i n kind vis op coords kids =>
    if ctx.effectiveAllowed && ((ctx.strategy.bind Strategy.replaceLayerId) == Option.some i) then
      .mk i n LKind.generative vis op
        { x := ctx.targetRect.x, y := ctx.targetRect.y, w := ctx.targetRect.w, h := ctx.targetRect.h }
        { scaleX := 1, scaleY := 1, offsetX := ctx.targetRect.x, offsetY := ctx.targetRect.y,
          rotation := Option.none }
        Option.none Option.none Option.none (ctx.strategy.bind Strategy.generativePrompt)
        TKids.none
    else
      let relX := (coords.x - ctx.sourceRect.x) / ctx.sourceRect.w
      let relY := (coords.y - ctx.sourceRect.y) / ctx.sourceRect.h
      let geomX := ctx.targetRect.x + relX * ctx.targetRect.w
      let geomY := ctx.targetRect.y + relY * ctx.targetRect.h
      let gs := globalScaleOf ctx.strategy
      let ov := getOverride ctx.strategy i
      let finalX := match ov with
        | Option.some o => ctx.targetRect.x + o.xOffset
        | Option.none => geomX + pdx
      let finalY := match ov with
        | Option.some o => ctx.targetRect.y + o.yOffset
        | Option.none => geomY + pdy
      let sX := match ov with
        | Option.some o => gs * (o.individualScale.getD 1)
        | Option.none => gs
      let sY := match ov with
        | Option.some o => gs * (o.individualScale.getD 1)
        | Option.none => gs
      .mk i n kind vis op
        { x := finalX, y := finalY, w := coords.w * sX, h := coords.h * sY }
        { scaleX := sX, scaleY := sY, offsetX := finalX, offsetY := finalY, rotation := Option.none }
        (ov.bind LayerOverride.layoutRole) (ov.bind LayerOverride.linkedAnchorId)
        (ov.bind LayerOverride.citedRule) Option.none
        (mapKids ctx pdx pdy kids)
termination_by structural l => l

/-- Child mapping: `layer.children ? transformLayers(children, depth+1, pdx, pdy) : undefined`.
At depth ≥ 1 the physics block never runs, so child lists are purely mapped. -/
def mapKids (ctx : MapCtx) (pdx pdy : ℚ) : SKids → TKids
  | .none => .none
  | .some ls => .some (mapSList ctx pdx pdy ls)
termination_by structural k => k

def mapSList (ctx : MapCtx) (pdx pdy : ℚ) : SList → TList
  | .nil => .nil
  | .cons h t => .cons (mapLayer ctx pdx pdy h) (mapSList ctx pdx pdy t)
termination_by structural l => l
end

/-- The root mapping pass: `layers.map(...)` with parent deltas 0 (the root call
`transformLayers(sourceData.layers)` uses depth 0 and deltas 0). -/
def mapRootLayers (ctx : MapCtx) (ls : List SLayer) : List TLayer :=
  ls.map (mapLayer ctx 0 0)

/-- Role assigned by the effective strategy override of a layer. -/
def overrideRoleOf (st : Option Strategy) (l : TLayer) : Option Role :=
  (getOverride st l.id).bind LayerOverride.layoutRole

/-- Grid solver candidate test: role strictly equal to 'flow' (lines 698-704). -/
def isFlowRole (s : Strategy) (l : TLayer) : Bool :=
  overrideRoleOf (some s) l == some Role.flow

/-- Horizontal distribution (lines 707-714): each flow candidate, in order, is
centered in its slot; `k` is the rank of the next candidate. -/
def distributeH (tr : Rect) (slotW : ℚ) (s : Strategy) : ℕ → List TLayer → List TLayer
  | _, [] => []
  | k, l :: rest =>
    if isFlowRole s l then
      setPosX (tr.x + (k : ℚ) * slotW + slotW / 2 - l.coords.w / 2) l
        :: distributeH tr slotW s (k + 1) rest
    else l :: distributeH tr slotW s k rest

/-- Vertical distribution (lines 715-723). -/
def distributeV (tr : Rect) (slotH : ℚ) (s : Strategy) : ℕ → List TLayer → List TLayer
  | _, [] => []
  | k, l :: rest =>
    if isFlowRole s l then
      setPosY (tr.y + (k : ℚ) * slotH + slotH / 2 - l.coords.h / 2) l
        :: distributeV tr slotH s (k + 1) rest
    else l :: distributeV tr slotH s k rest

/-- The grid solver (lines 696-724): runs only when there is at least one flow
candidate, and only for the two DISTRIBUTE layout modes. -/
def gridSolve (tr : Rect) (s : Strategy) (t : List TLayer) : List TLayer :=
  let n := (t.filter (isFlowRole s)).length
  if n = 0 then t
  else
    match s.layoutMode with
    | some LayoutMode.DISTRIBUTE_HORIZONTAL => distributeH tr (tr.w / (n : ℚ)) s 0 t
    | some LayoutMode.DISTRIBUTE_VERTICAL => distributeV tr (tr.h / (n : ℚ)) s 0 t
    | _ => t

/-- Collision solver candidate test (lines 728-731): role 'flow' or no role. -/
def flowOrFree (s : Strategy) (l : TLayer) : Bool :=
  match overrideRoleOf (some s) l with
  | some Role.flow => true
  | none => true
  | some _ => false

/-- Collision candidates paired with their index in the root list. -/
def collisionCandidates (s : Strategy) (t : List TLayer) : List (ℕ × TLayer) :=
  t.enum.filter (fun p => flowOrFree s p.2)

/-- Stable insertion into a list sorted ascending by `coords.x`. -/
def insertByX (p : ℕ × TLayer) : List (ℕ × TLayer) → List (ℕ × TLayer)
  | [] => [p]
  | q :: rest =>
    if p.2.coords.x ≤ q.2.coords.x then p :: q :: rest else q :: insertByX p rest

/-- Stable ascending sort by `coords.x`, modelling
`flowItems.sort((a, b) => a.coords.x - b.coords.x)` (JavaScript sort is stable). -/
def sortByX : List (ℕ × TLayer) → List (ℕ × TLayer)
  | [] => []
  | h :: t => insertByX h (sortByX t)

/-- The padding used by the collision solver (line 734). -/
def collisionPadding : ℚ := 10

/-- One comparison of the collision sweep (lines 743-749): push the current
candidate to `prev.x + prev.w + padding` when it starts before that bound. -/
def sweepStep (prev c : TLayer) : TLayer :=
  if c.coords.x < prev.coords.x + prev.coords.w + collisionPadding then
    setPosX (prev.coords.x + prev.coords.w + collisionPadding) c
  else c

/-- The sweep body for indices ≥ 1 (lines 736-750): each candidate is compared
against the previous candidate with its already-updated position. -/
def sweepTail (prev : TLayer) : List (ℕ × TLayer) → List (ℕ × TLayer)
  | [] => []
  | (i, c) :: rest =>
    let c2 := sweepStep prev c
    (i, c2) :: sweepTail c2 rest

/-- The single left-to-right collision sweep over the sorted candidates. -/
def collisionSweep : List (ℕ × TLayer) → List (ℕ × TLayer)
  | [] => []
  | (i, c) :: rest => (i, c) :: sweepTail c rest

/-- Truthiness of `strategy.physicsRules?.preventOverlap`. -/
def preventOverlapSet (s : Strategy) : Bool :=
  boolTruthy (s.physicsRules.bind PhysicsRules.preventOverlap)

/-- Truthiness of `strategy.physicsRules?.preventClipping`. -/
def preventClippingSet (s : Strategy) : Bool :=
  boolTruthy (s.physicsRules.bind PhysicsRules.preventClipping)

/-- The collision solver (lines 726-751): filter the flow-or-free candidates,
sort them ascending by x, sweep once, and write the updated candidates back at
their original indices (the source mutates the shared layer objects in place). -/
def collisionSolve (s : Strategy) (t : List TLayer) : List TLayer :=
  if preventOverlapSet s then
    let swept := collisionSweep (sortByX (collisionCandidates s t))
    t.enum.map (fun p =>
      match swept.find? (fun q => q.1 == p.1) with
      | some q => q.2
      | none => p.2)
  else t

/-- Indices of the overlay-role layers in the root list (line 754). -/
def overlayIdxs (s : Strategy) (t : List TLayer) : List ℕ :=
  (List.range t.length).filter fun i =>
    match t[i]? with
    | some l => overrideRoleOf (some s) l == some Role.overlay
    | none => false

/-- One overlay update (lines 755-794): the overlay snaps to its anchor at the
source offset scaled by the global scale.  Lookups run against the current list,
so earlier overlay updates are visible, as with the mutated shared objects in
the source. -/
def overlayStep (ctx : MapCtx) (s : Strategy) (acc : List TLayer) (i : ℕ) : List TLayer :=
  match acc[i]? with
  | none => acc
  | some l =>
    match (getOverride (some s) l.id).bind LayerOverride.linkedAnchorId with
    | none => acc
    | some anchorId =>
      match acc.find? (fun a => a.id == anchorId) with
      | none => acc
      | some anchor =>
        match ctx.sourceLayers.find? (fun sl => sl.id == l.id),
              ctx.sourceLayers.find? (fun sl => sl.id == anchorId) with
        | some so, some sa =>
          let gs := globalScaleOf ctx.strategy
          acc.set i (setPosXY
            (anchor.coords.x + (so.coords.x - sa.coords.x) * gs)
            (anchor.coords.y + (so.coords.y - sa.coords.y) * gs) l)
        | _, _ => acc

/-- The overlay solver: apply `overlayStep` to every overlay-role index. -/
def overlaySolve (ctx : MapCtx) (s : Strategy) (t : List TLayer) : List TLayer :=
  (overlayIdxs s t).foldl (overlayStep ctx s) t

/-- Membership of a layer id in the raw feedback overrides (line 801):
`feedback?.overrides.some(o => o.layerId === l.id)`. -/
def inFeedback (fb : Option FeedbackStrategy) (i : String) : Bool :=
  match fb with
  | some f => f.overrides.any (fun o => o.layerId == i)
  | none => false

/-- The per-layer boundary clamp (lines 798-816): manual feedback layers are
exempt; otherwise x is set to `max(minX, min(x, maxX))` and y analogously. -/
def clampLayer (fb : Option FeedbackStrategy) (tr : Rect) (l : TLayer) : TLayer :=
  if inFeedback fb l.id then l
  else
    setPosXY
      (max tr.x (min l.coords.x (tr.x + tr.w - l.coords.w)))
      (max tr.y (min l.coords.y (tr.y + tr.h - l.coords.h))) l

/-- The boundary solver (lines 796-817), gated by preventClipping. -/
def boundarySolve (fb : Option FeedbackStrategy) (tr : Rect) (s : Strategy)
    (t : List TLayer) : List TLayer :=
  if preventClippingSet s then t.map (clampLayer fb tr) else t

/-- The root-level physics block (lines 693-818), in source order: grid solver,
collision solver, overlay solver, boundary solver. -/
def applyPhysics (ctx : MapCtx) (s : Strategy) (t : List TLayer) : List TLayer :=
  boundarySolve ctx.feedback ctx.targetRect s
    (overlaySolve ctx s (collisionSolve s (gridSolve ctx.targetRect s t)))

/-- The root list state just before the boundary solver runs. -/
def preClampState (ctx : MapCtx) (ls : List SLayer) : List TLayer :=
  match ctx.strategy with
  | some s => overlaySolve ctx s (collisionSolve s (gridSolve ctx.targetRect s (mapRootLayers ctx ls)))
  | none => mapRootLayers ctx ls

/-- `transformLayers` at the root: map every layer, then, when a strategy is
present, run the physics block (the source guards it with `depth === 0 && strategy`;
child recursion always happens at depth ≥ 1 so only the root list is solved). -/
def transformLayers (ctx : MapCtx) (ls : List SLayer) : List TLayer :=
  match ctx.strategy with
  | some s => applyPhysics ctx s (mapRootLayers ctx ls)
  | none => mapRootLayers ctx ls

/-! ### Generation state reconciler (ProceduralContext.tsx, lines 63-162) -/

/-- Payload status, src/types.ts: 'success' | 'error' | 'idle' | 'awaiting_confirmation'. -/
inductive PStatus where
  | success
  | error
  | idle
  | awaiting_confirmation
deriving DecidableEq, Repr

/-- TransformedPayload from src/types.ts, restricted to the fields the
reconciler and the compositor read or write.  Fields that may be `undefined`
at runtime are Options; `metrics` is declared required by the interface but the
reconciler guards it with `||`, so it is optional here. -/
structure Payload where
  status : PStatus
  sourceNodeId : String
  sourceContainer : String
  targetContainer : String
  layers : List TLayer
  scaleFactor : ℚ
  metrics : Option Metrics
  targetBounds : Option Rect
  requiresGeneration : Option Bool
  previewUrl : Option String
  isConfirmed : Option Bool
  isTransient : Option Bool
  isSynthesizing : Option Bool
  sourceReference : Option String
  generationId : Option ℕ
  generationAllowed : Option Bool
  isPolished : Option Bool
  directives : Option (List String)
  isMandatory : Option Bool

/-- The mandatory-generation test (lines 96-97):
`incoming.isMandatory || incoming.directives?.includes('MANDATORY_GEN_FILL')`. -/
def isForcedPayload (p : Payload) : Bool :=
  boolTruthy p.isMandatory ||
    (p.directives.map (fun ds => ds.contains "MANDATORY_GEN_FILL")).getD false

/-- The layer filter of the generation-disabled branch (lines 90-92):
`l.type !== 'generative' || (l.id && !l.id.startsWith('gen-layer-'))`.
It is applied to `incoming.layers` only, never to nested children. -/
def keepWhenGenerationDisabled (l : TLayer) : Bool :=
  !(l.kind == LKind.generative) || (!(l.id == "") && !(jsStartsWith l.id "gen-layer-"))

/-- The `metrics || metrics` fallback: an object is truthy exactly when present. -/
def jsOrMetrics (a b : Option Metrics) : Option Metrics :=
  if a.isSome then a else b

/-- The `incoming.targetContainer || current?.targetContainer || ''` fallback. -/
def jsContainerOf (tc : String) (current : Option Payload) : String :=
  if tc == "" then (current.map Payload.targetContainer).getD "" else tc

/-- reconcileTerminalState (ProceduralContext.tsx, lines 63-162), transcribed
branch by branch; `current = none` models an undefined currentPayload. -/
def reconcileTerminalState (incoming : Payload) (current : Option Payload) : Payload :=
  if incoming.status = PStatus.idle ∧ numTruthy incoming.generationId = false then
    { incoming with
      previewUrl := none, isConfirmed := some false, isTransient := some false,
      isSynthesizing := some false, isPolished := some false,
      requiresGeneration := some false, sourceReference := none }
  else if incoming.generationAllowed = some false then
    { incoming with
      previewUrl := none, isConfirmed := some false, isTransient := some false,
      isSynthesizing := some false, requiresGeneration := some false,
      layers := incoming.layers.filter keepWhenGenerationDisabled }
  else if isForcedPayload incoming = true ∧ boolTruthy incoming.requiresGeneration = true then
    { incoming with
      status := PStatus.success, isConfirmed := some true, isTransient := some false,
      previewUrl := jsOrStr incoming.previewUrl (current.bind Payload.previewUrl),
      sourceReference := jsOrStr incoming.sourceReference (current.bind Payload.sourceReference),
      generationId := jsOrNum incoming.generationId (current.bind Payload.generationId) }
  else if numTruthy (current.bind Payload.generationId) = true ∧
          numTruthy incoming.generationId = true ∧
          (incoming.generationId.getD 0) < ((current.bind Payload.generationId).getD 0) then
    -- the guard requires a present current payload; getD only supplies totality
    current.getD incoming
  else if incoming.status = PStatus.idle then
    { incoming with
      previewUrl := none, isConfirmed := some false, isTransient := some false,
      isSynthesizing := some false }
  else if boolTruthy incoming.isSynthesizing = true then
    { current.getD incoming with
      isSynthesizing := some true,
      previewUrl := current.bind Payload.previewUrl,
      sourceReference := jsOrStr incoming.sourceReference (current.bind Payload.sourceReference),
      targetContainer := jsContainerOf incoming.targetContainer current,
      metrics := jsOrMetrics incoming.metrics (current.bind Payload.metrics),
      generationId := current.bind Payload.generationId,
      generationAllowed := some true }
  else
    let confirmed :=
      if boolTruthy incoming.isTransient then false
      else (nullish incoming.isConfirmed (current.bind Payload.isConfirmed)).getD false
    if numTruthy incoming.generationId = false ∧
       numTruthy (current.bind Payload.generationId) = true then
      match current with
      | some cur =>
        { incoming with
          previewUrl := cur.previewUrl, generationId := cur.generationId,
          isSynthesizing := cur.isSynthesizing, isConfirmed := cur.isConfirmed,
          isTransient := cur.isTransient,
          sourceReference := jsOrStr cur.sourceReference incoming.sourceReference,
          generationAllowed := some true }
      | none => incoming -- unreachable: the branch guard needs a current generationId
    else
      { incoming with
        isConfirmed := some confirmed,
        sourceReference := jsOrStr incoming.sourceReference (current.bind Payload.sourceReference),
        generationId := jsOrNum incoming.generationId (current.bind Payload.generationId),
        generationAllowed := some true }

/-! ### Compositor (psdService.ts, lines 382-566) -/

/-- A node of the original PSD binary: whether it carries a pixel canvas, and
its child layers. -/
inductive PsdLayer : Type where
  | mk (hasCanvas : Bool) (children : Option (List PsdLayer))

def PsdLayer.hasCanvas : PsdLayer → Bool
  | .mk c _ => c

def PsdLayer.children : PsdLayer → Option (List PsdLayer)
  | .mk _ k => k

/-- The root of the original PSD binary. -/
structure PsdDoc where
  children : Option (List PsdLayer)

/-- Split a character list on the dot character, as `pathId.split('.')` does:
the result always has one segment more than there are dots. -/
def splitOnDot : List Char → List (List Char)
  | [] => [[]]
  | c :: rest =>
    let r := splitOnDot rest
    if c = '.' then [] :: r
    else
      match r with
      | [] => [[c]]
      | seg :: segs => (c :: seg) :: segs

/-- Decimal digit value of a character, if it is a digit. -/
def digitVal (c : Char) : Option ℕ :=
  if 48 ≤ c.toNat ∧ c.toNat ≤ 57 then some (c.toNat - 48) else none

def parseDigitsAux : ℕ → List Char → Option ℕ
  | acc, [] => some acc
  | acc, c :: rest =>
    match digitVal c with
    | some d => parseDigitsAux (acc * 10 + d) rest
    | none => none

/-- The JavaScript `Number(segment)` as used on path segments: the empty string
is 0, a digit string is its value, and anything else is NaN, which makes the
subsequent array lookup fail; NaN is modelled as `none`. -/
def jsNumSegment (seg : List Char) : Option ℕ :=
  if seg = [] then some 0 else parseDigitsAux 0 seg

/-- The parsed index list `pathId.split('.').map(Number)` (line 384). -/
def pathIndices (pathId : String) : List (Option ℕ) :=
  (splitOnDot pathId.toList).map jsNumSegment

/-- The walk of findLayerByPath (lines 386-397): at each index, fail when the
current child list is absent or the index does not hit a layer; otherwise
descend and remember the hit as the target. -/
def walkPath : List (Option ℕ) → Option (List PsdLayer) → Option PsdLayer → Option PsdLayer
  | [], _, target => target
  | idx :: rest, cur, _ =>
    match cur, idx with
    | some layers, some n =>
      match layers[n]? with
      | some t => walkPath rest t.children (some t)
      | none => none
    | _, _ => none

/-- findLayerByPath (psdService.ts, lines 382-398); `if (!pathId) return null`
catches the empty id. -/
def findLayerByPath (psd : PsdDoc) (pathId : String) : Option PsdLayer :=
  if pathId == "" then none
  else walkPath (pathIndices pathId) psd.children none

/-- Whether the layer id resolves to a source layer carrying a pixel canvas:
`sourceLayer && sourceLayer.canvas` (line 526). -/
def hasBuffer (psd : PsdDoc) (i : String) : Bool :=
  match findLayerByPath psd i with
  | some pl => pl.hasCanvas
  | none => false

/-- The effective alpha of a leaf (lines 466-470 and 497): an opacity of exactly
0 is forced to 1, then the result is clamped into [0, 1] by
`Math.max(0, Math.min(1, eff))`.  The source also coerces a non-number opacity
to 1; opacity is a number in this model. -/
def effAlpha (o : ℚ) : ℚ :=
  max 0 (min 1 (if o = 0 then 1 else o))

/-- Truthiness of `layer.transform && layer.transform.rotation` (line 527). -/
def rotSet (t : Transform) : Bool :=
  match t.rotation with
  | some r => !(r == 0)
  | none => false

/-- The drawing effects of the compositor walk.  Console logging is not part of
the trace except for the missing-buffer warning of line 540, which is the
diagnostic the error-handling design names. -/
inductive CEvent where
  | matte (w h : ℚ)
  | paintPixels (id : String) (alpha : ℚ) (x y w h : ℚ) (rotated : Bool)
  | paintGenerated (alpha : ℚ) (x y w h : ℚ)
  | paintPlaceholder (alpha : ℚ) (x y w h : ℚ)
  | diagMissingBuffer (id : String)
  | exportPng
deriving DecidableEq, Repr

/-- The environment closed over by drawLayers: the source binary, the canvas
origin, the preview url, and whether the preloaded preview image draws without
throwing. -/
structure CompEnv where
  psd : PsdDoc
  originX : ℚ
  originY : ℚ
  previewUrl : Option String
  genOk : Bool

mutual
/-- One iteration of the drawLayers loop (psdService.ts, lines 462-545):
skip invisible layers, recurse into groups that have children, and paint leaves
with the effective alpha at canvas-local coordinates. -/
def drawLayer (env : CompEnv) : TLayer → List CEvent
  | .mk i _ k v o c t _ _ _ _ kids =>
    if !v then []
    else
      match k, kids with
      | LKind.group, TKids.some cs => drawTList env cs
      | k2, _ =>
        let alpha := effAlpha o
        let dx := c.x - env.originX
        let dy := c.y - env.originY
        if k2 == LKind.generative then
          if strTruthy env.previewUrl then
            if env.genOk then [CEvent.paintGenerated alpha dx dy c.w c.h]
            else [CEvent.paintPlaceholder alpha dx dy c.w c.h]
          else [CEvent.paintPlaceholder alpha dx dy c.w c.h]
        else
          if hasBuffer env.psd i then
            [CEvent.paintPixels i alpha dx dy c.w c.h (rotSet t)]
          else [CEvent.diagMissingBuffer i]
termination_by structural l => l

def drawTList (env : CompEnv) : TList → List CEvent
  | .nil => []
  | .cons h t => drawLayer env h ++ drawTList env t
termination_by structural l => l
end

/-- The root drawLayers call over `payload.layers`. -/
def drawRootLayers (env : CompEnv) (ls : List TLayer) : List CEvent :=
  ls.flatMap (drawLayer env)

/-- Canvas size: targetBounds when available, else metrics.target (lines 413-414). -/
def canvasDims (p : Payload) : Dims :=
  match p.targetBounds with
  | some b => { w := b.w, h := b.h }
  | none => (p.metrics.map Metrics.target).getD { w := 0, h := 0 }

/-- Canvas origin: targetBounds origin when available, else 0 (lines 417-418). -/
def canvasOrigin (p : Payload) : ℚ × ℚ :=
  match p.targetBounds with
  | some b => (b.x, b.y)
  | none => (0, 0)

/-- The compositing environment for a payload (the generated preview image is
loaded exactly when `payload.previewUrl` is set; `genOk` records whether drawing
that image succeeds). -/
def compositeEnv (p : Payload) (psd : PsdDoc) (genOk : Bool) : CompEnv :=
  { psd := psd, originX := (canvasOrigin p).1, originY := (canvasOrigin p).2,
    previewUrl := p.previewUrl, genOk := genOk }

/-- The effect trace of compositePayloadToCanvas (lines 409-552): the opaque
background matte, the recursive paint of all layers, and the PNG export. -/
def compositeTrace (p : Payload) (psd : PsdDoc) (genOk : Bool) : List CEvent :=
  CEvent.matte (canvasDims p).w (canvasDims p).h
    :: (drawRootLayers (compositeEnv p psd genOk) p.layers ++ [CEvent.exportPng])

/-! ### Auxiliary predicate and concrete instances used by the theorems below -/

/-- The gap relation that holds between adjacent swept collision candidates. -/
def sweepGap (a b : ℕ × TLayer) : Prop :=
  a.2.coords.x + a.2.coords.w + collisionPadding ≤ b.2.coords.x

/-- A payload with every optional field absent, used as a base for instances. -/
def basePayload : Payload :=
  { status := PStatus.success
    sourceNodeId := "node"
    sourceContainer := "src"
    targetContainer := "tgt"
    layers := []
    scaleFactor := 1
    metrics := none
    targetBounds := none
    requiresGeneration := none
    previewUrl := none
    isConfirmed := none
    isTransient := none
    isSynthesizing := none
    sourceReference := none
    generationId := none
    generationAllowed := none
    isPolished := none
    directives := none
    isMandatory := none }

/-- A plain visible pixel leaf at the given rectangle. -/
def plainLayer (i : String) (x y w h : ℚ) : TLayer :=
  TLayer.mk i i LKind.layer true 1 ⟨x, y, w, h⟩ ⟨1, 1, x, y, none⟩
    none none none none TKids.none

/-- An override with the given geometry and no optional adjustments. -/
def plainOverride (i : String) (dx dy : ℚ) : LayerOverride :=
  { layerId := i
    xOffset := dx
    yOffset := dy
    individualScale := none
    rotation := none
    citedRule := none
    anchorIndex := none
    layoutRole := none
    linkedAnchorId := none }

/-- A strategy with no overrides and the given physics rules. -/
def plainStrategy (rules : Option PhysicsRules) : Strategy :=
  { suggestedScale := 1
    generativePrompt := none
    overrides := none
    directives := none
    replaceLayerId := none
    isExplicitIntent := none
    layoutMode := none
    physicsRules := rules }

/- C1 instances: a stale incoming payload whose generationAllowed gate fires
before the staleness guard, and a pair reaching the staleness guard. -/

def c1IncX : Payload :=
  { basePayload with generationId := some 3, generationAllowed := some false }

def c1CurX : Payload :=
  { basePayload with
    generationId := some 5
    generationAllowed := some true
    previewUrl := some "preview-5"
    isConfirmed := some true }

def c1IncW : Payload :=
  { basePayload with generationId := some 3, previewUrl := some "preview-3" }

def c1CurW : Payload :=
  { basePayload with
    generationId := some 5
    generationAllowed := some true
    previewUrl := some "preview-5"
    isConfirmed := some true }

/- C2 instances: the end-to-end scenario of spec section 8. -/

def c2SourceLayer : SLayer :=
  SLayer.mk "0" "hero" LKind.layer true 1 ⟨100, 100, 200, 200⟩ SKids.none

def c2Ctx : MapCtx :=
  { sourceRect := ⟨0, 0, 1000, 1000⟩
    targetRect := ⟨0, 0, 500, 2000⟩
    strategy := none
    feedback := none
    effectiveAllowed := true
    sourceLayers := [c2SourceLayer] }

/- C3 instances: two feedback overrides sharing one layerId, and a well-formed
base/feedback pair. -/

def c3o1 : LayerOverride := plainOverride "dup" 1 0

def c3o2 : LayerOverride := plainOverride "dup" 2 0

def c3b1 : LayerOverride :=
  { plainOverride "keep" 0 0 with
    layoutRole := some Role.overlay
    linkedAnchorId := some "anchor"
    citedRule := some "rule-7"
    individualScale := some 2 }

def c3f1 : LayerOverride :=
  { plainOverride "keep" 30 40 with
    layoutRole := some Role.flow
    individualScale := some 3 }

def c3f2 : LayerOverride := plainOverride "new" 5 6

def c3B : List LayerOverride := [c3b1]

def c3F : List LayerOverride := [c3f1, c3f2]

/- C4 instances: a geometry-only recomputation against a confirmed generation. -/

def c4IncX : Payload :=
  { basePayload with sourceReference := some "inc-ref" }

def c4CurX : Payload :=
  { basePayload with
    generationId := some 7
    previewUrl := some "p"
    isConfirmed := some true
    isSynthesizing := some false
    isTransient := some false
    generationAllowed := some true }

def c4IncW : Payload :=
  { basePayload with scaleFactor := 2, generationAllowed := some true }

def c4CurW : Payload :=
  { basePayload with
    generationId := some 9
    previewUrl := some "confirmed-preview"
    isConfirmed := some true
    isSynthesizing := some false
    isTransient := some false
    sourceReference := some "cur-ref"
    generationAllowed := some true }

/- C5 instances: a clipping-enabled context with one manually edited layer. -/

def c5Fb : FeedbackStrategy :=
  { overrides := [plainOverride "manual" 900 900], isCommitted := some true }

def c5S : Strategy :=
  plainStrategy (some { preventOverlap := none, preventClipping := some true })

def c5Ctx : MapCtx :=
  { sourceRect := ⟨0, 0, 1000, 1000⟩
    targetRect := ⟨0, 0, 400, 300⟩
    strategy := some c5S
    feedback := some c5Fb
    effectiveAllowed := true
    sourceLayers := [] }

def c5Manual : TLayer := plainLayer "manual" 950 950 50 50

def c5Free : TLayer := plainLayer "free" 390 10 50 50

def c5Exact : TLayer := plainLayer "exact" 35 10 400 50

/- C6 instances: two overlapping flow candidates. -/

def c6S : Strategy :=
  plainStrategy (some { preventOverlap := some true, preventClipping := none })

def c6LayerA : TLayer := plainLayer "a" 0 0 100 10

def c6LayerB : TLayer := plainLayer "b" 50 0 30 10

def c6T : List TLayer := [c6LayerA, c6LayerB]

/- C7 and C8 instances: a tiny PSD with one pixel layer, payloads whose leaves
hit and miss the buffer lookup. -/

def c7Psd : PsdDoc := { children := some [PsdLayer.mk true none] }

def c7Bad : TLayer := plainLayer "1" 10 10 20 20

def c7Good : TLayer := plainLayer "0" 0 0 5 5

def c7Payload : Payload :=
  { basePayload with
    layers := [c7Good, c7Bad]
    targetBounds := some ⟨0, 0, 100, 100⟩ }

def c8Psd : PsdDoc := { children := some [PsdLayer.mk true none] }

def c8Layer : TLayer :=
  TLayer.mk "0" "zero-opacity" LKind.layer true 0 ⟨10, 10, 20, 20⟩ ⟨1, 1, 10, 10, none⟩
    none none none none TKids.none

def c8Env : CompEnv :=
  { psd := c8Psd, originX := 0, originY := 0, previewUrl := none, genOk := false }

/- C9 instances: a clipping-enabled context and an oversized layer. -/

def c9S : Strategy :=
  plainStrategy (some { preventOverlap := none, preventClipping := some true })

def c9Ctx : MapCtx :=
  { sourceRect := ⟨0, 0, 1000, 1000⟩
    targetRect := ⟨20, 30, 400, 300⟩
    strategy := some c9S
    feedback := none
    effectiveAllowed := true
    sourceLayers := [] }

def c9Wide : TLayer := plainLayer "wide" 0 0 600 500

/- C10 instances: a generation-disabled payload carrying a synthetic generative
layer both at the top level and nested inside a group. -/

def c10GenChild : TLayer :=
  TLayer.mk "gen-layer-nested" "nested" LKind.generative true 1 ⟨0, 0, 10, 10⟩
    ⟨1, 1, 0, 0, none⟩ none none none none TKids.none

def c10Grp : TLayer :=
  TLayer.mk "grp" "grp" LKind.group true 1 ⟨0, 0, 50, 50⟩ ⟨1, 1, 0, 0, none⟩
    none none none none (TKids.some (TList.cons c10GenChild TList.nil))

def c10TopGen : TLayer :=
  TLayer.mk "gen-layer-top" "top" LKind.generative true 1 ⟨0, 0, 10, 10⟩
    ⟨1, 1, 0, 0, none⟩ none none none none TKids.none

def c10Inc : Payload :=
  { basePayload with
    layers := [c10Grp, c10TopGen]
    generationAllowed := some false
    generationId := some 4 }

/-! ### General lemmas -/

@[simp] theorem setPosX_coords (nx : ℚ) (l : TLayer) :
    (setPosX nx l).coords = { l.coords with x := nx } := by
  cases l; rfl

@[simp] theorem setPosXY_coords (nx ny : ℚ) (l : TLayer) :
    (setPosXY nx ny l).coords = { l.coords with x := nx, y := ny } := by
  cases l; rfl

theorem sweepStep_bound (prev c : TLayer) :
    prev.coords.x + prev.coords.w + collisionPadding ≤ (sweepStep prev c).coords.x := by
  unfold sweepStep
  split
  · simp
  · next h => exact le_of_not_lt h

theorem sweepStep_x (prev c : TLayer) :
    (sweepStep prev c).coords.x =
      (if c.coords.x < prev.coords.x + prev.coords.w + collisionPadding
       then prev.coords.x + prev.coords.w + collisionPadding else c.coords.x) := by
  unfold sweepStep
  split <;> simp

theorem sweepTail_cons (prev : TLayer) (i : ℕ) (c : TLayer) (t : List (ℕ × TLayer)) :
    sweepTail prev ((i, c) :: t) = (i, sweepStep prev c) :: sweepTail (sweepStep prev c) t := rfl

theorem collisionSweep_cons (i : ℕ) (c : TLayer) (t : List (ℕ × TLayer)) :
    collisionSweep ((i, c) :: t) = (i, c) :: sweepTail c t := rfl

theorem sweepTail_zero (prev : TLayer) (cs : List (ℕ × TLayer)) :
    (sweepTail prev cs)[0]? = cs[0]?.map (fun q => (q.1, sweepStep prev q.2)) := by
  cases cs with
  | nil => rfl
  | cons h t => obtain ⟨i, c⟩ := h; rw [sweepTail_cons]; simp

theorem sweepTail_chain (cs : List (ℕ × TLayer)) : ∀ prev : TLayer,
    List.Chain' sweepGap (sweepTail prev cs) ∧
    (∀ q ∈ (sweepTail prev cs).head?,
      prev.coords.x + prev.coords.w + collisionPadding ≤ q.2.coords.x) := by
  induction cs with
  | nil => intro prev; simp [sweepTail]
  | cons h t ih =>
    intro prev
    obtain ⟨i, c⟩ := h
    rw [sweepTail_cons]
    constructor
    · rw [List.chain'_cons']
      exact ⟨fun q hq => (ih (sweepStep prev c)).2 q hq, (ih (sweepStep prev c)).1⟩
    · intro q hq
      simp at hq
      rw [← hq]
      exact sweepStep_bound prev c

theorem collisionSweep_chain (cs : List (ℕ × TLayer)) :
    List.Chain' sweepGap (collisionSweep cs) := by
  cases cs with
  | nil => simp [collisionSweep]
  | cons h t =>
    obtain ⟨i, c⟩ := h
    rw [collisionSweep_cons, List.chain'_cons']
    exact ⟨fun q hq => (sweepTail_chain t c).2 q hq, (sweepTail_chain t c).1⟩

theorem sweepTail_get (cs : List (ℕ × TLayer)) : ∀ (prev : TLayer) (k : ℕ) (a b : ℕ × TLayer),
    (sweepTail prev cs)[k]? = some a → cs[k + 1]? = some b →
    (sweepTail prev cs)[k + 1]? = some (b.1, sweepStep a.2 b.2) := by
  induction cs with
  | nil => intro prev k a b ha _; simp [sweepTail] at ha
  | cons h t ih =>
    intro prev k a b ha hb
    obtain ⟨i, c⟩ := h
    rw [sweepTail_cons] at ha ⊢
    cases k with
    | zero =>
      simp only [List.getElem?_cons_zero, Option.some.injEq] at ha
      simp only [List.getElem?_cons_succ, List.getElem?_cons_zero] at hb ⊢
      rw [sweepTail_zero, hb]
      simp [← ha]
    | succ k =>
      simp only [List.getElem?_cons_succ] at ha hb ⊢
      exact ih (sweepStep prev c) k a b ha hb

theorem collisionSweep_get (cs : List (ℕ × TLayer)) (k : ℕ) (a b : ℕ × TLayer)
    (ha : (collisionSweep cs)[k]? = some a) (hb : cs[k + 1]? = some b) :
    (collisionSweep cs)[k + 1]? = some (b.1, sweepStep a.2 b.2) := by
  cases cs with
  | nil => simp [collisionSweep] at ha
  | cons h t =>
    obtain ⟨i, c⟩ := h
    rw [collisionSweep_cons] at ha ⊢
    cases k with
    | zero =>
      simp only [List.getElem?_cons_zero, Option.some.injEq] at ha
      simp only [List.getElem?_cons_succ, List.getElem?_cons_zero] at hb ⊢
      rw [sweepTail_zero, hb]
      simp [← ha]
    | succ k =>
      simp only [List.getElem?_cons_succ] at ha hb ⊢
      exact sweepTail_get t c k a b ha hb

theorem resolveBase_id (fos : List LayerOverride) (b : LayerOverride) :
    (resolveBaseOverride fos b).layerId = b.layerId := by
  unfold resolveBaseOverride
  cases h : feedbackLookup fos b.layerId <;> simp [applyManual]

theorem resolveBase_roles (fos : List LayerOverride) (b : LayerOverride) :
    (resolveBaseOverride fos b).layoutRole = b.layoutRole ∧
    (resolveBaseOverride fos b).linkedAnchorId = b.linkedAnchorId ∧
    (resolveBaseOverride fos b).citedRule = b.citedRule := by
  unfold resolveBaseOverride
  cases h : feedbackLookup fos b.layerId <;> simp [applyManual]

theorem find?_of_nodup_ids (l : List LayerOverride)
    (hnd : (l.map LayerOverride.layerId).Nodup)
    (f : LayerOverride) (hf : f ∈ l) (x : String) (hx : f.layerId = x) :
    l.find? (fun o => o.layerId == x) = some f := by
  induction l with
  | nil => simp at hf
  | cons h t ih =>
    simp only [List.map_cons, List.nodup_cons] at hnd
    rcases List.mem_cons.mp hf with rfl | hmem
    · have hpos : (f.layerId == x) = true := by simp [hx]
      simp only [List.find?_cons, hpos]
    · have hne : (h.layerId == x) = false := by
        simp only [beq_eq_false_iff_ne, ne_eq]
        intro hcontra
        exact hnd.1 (hcontra ▸ hx ▸ List.mem_map_of_mem LayerOverride.layerId hmem)
      simp only [List.find?_cons, hne]
      exact ih hnd.2 hmem

theorem feedbackLookup_of_nodup (F : List LayerOverride)
    (hF : (F.map LayerOverride.layerId).Nodup)
    (f : LayerOverride) (hf : f ∈ F) (x : String) (hx : f.layerId = x) :
    feedbackLookup F x = some f := by
  unfold feedbackLookup
  refine find?_of_nodup_ids _ ?_ f (by simpa using hf) x hx
  rw [List.map_reverse]
  exact (List.nodup_reverse).mpr hF

theorem appendNew_eq (fos : List LayerOverride) :
    ∀ acc, (fos.map LayerOverride.layerId).Nodup →
    appendNewOverrides acc fos =
      acc ++ fos.filter (fun f => !(acc.any (fun m => m.layerId == f.layerId))) := by
  induction fos with
  | nil => intro acc _; simp [appendNewOverrides]
  | cons f rest ih =>
    intro acc hnd
    simp only [List.map_cons, List.nodup_cons] at hnd
    rw [appendNewOverrides]
    by_cases hacc : acc.any (fun m => m.layerId == f.layerId) = true
    · rw [if_pos hacc, ih acc hnd.2]
      have hstep : (List.filter (fun g => !(acc.any (fun m => m.layerId == g.layerId))) (f :: rest))
          = rest.filter (fun g => !(acc.any (fun m => m.layerId == g.layerId))) := by
        rw [List.filter_cons_of_neg]
        simp [hacc]
      rw [hstep]
    · rw [if_neg hacc, ih (acc ++ [f]) hnd.2]
      have hfilter : rest.filter (fun g => !((acc ++ [f]).any (fun m => m.layerId == g.layerId)))
          = rest.filter (fun g => !(acc.any (fun m => m.layerId == g.layerId))) := by
        apply List.filter_congr
        intro r hr
        have hne : (f.layerId == r.layerId) = false := by
          simp only [beq_eq_false_iff_ne, ne_eq]
          intro hcontra
          exact hnd.1 (hcontra ▸ List.mem_map_of_mem LayerOverride.layerId hr)
        simp [List.any_append, hne]
      rw [hfilter]
      have hcons : (List.filter (fun g => !(acc.any (fun m => m.layerId == g.layerId))) (f :: rest))
          = f :: rest.filter (fun g => !(acc.any (fun m => m.layerId == g.layerId))) := by
        rw [List.filter_cons_of_pos]
        simp [hacc]
      rw [hcons, List.append_assoc, List.singleton_append]

theorem mergeOverrides_eq (B F : List LayerOverride)
    (hF : (F.map LayerOverride.layerId).Nodup) :
    mergeOverrides B F =
      B.map (resolveBaseOverride F) ++
        F.filter (fun f => !(B.any (fun b => b.layerId == f.layerId))) := by
  unfold mergeOverrides
  rw [appendNew_eq F _ hF]
  congr 1
  apply List.filter_congr
  intro f _
  have hany : ∀ L : List LayerOverride,
      (L.map (resolveBaseOverride F)).any (fun m => m.layerId == f.layerId)
        = L.any (fun b => b.layerId == f.layerId) := by
    intro L
    induction L with
    | nil => rfl
    | cons b t ih => simp [List.any_cons, ih, resolveBase_id]
  rw [hany]

theorem mapResolve_ids (F : List LayerOverride) : ∀ B : List LayerOverride,
    (B.map (resolveBaseOverride F)).map LayerOverride.layerId = B.map LayerOverride.layerId := by
  intro B
  induction B with
  | nil => rfl
  | cons b t ih => simp [ih, resolveBase_id]

/-! ### Claim C1 -/

/-- C1 counterexample: with `incoming.generationId = 3 < 5 = current.generationId`
but `incoming.generationAllowed = false`, the generation-disabled branch fires
before the staleness guard, so `reconcile` does NOT return `current` unchanged;
the claim fails as universally stated over all other fields of `incoming`. -/
theorem c1_counterexample :
    c1IncX.generationId = some 3 ∧ c1CurX.generationId = some 5 ∧
    reconcileTerminalState c1IncX (some c1CurX) ≠ c1CurX := by
  refine ⟨rfl, rfl, fun h => absurd (congrArg Payload.generationId h) (by decide)⟩

/-- C1 (amended): when both payloads carry nonzero generationIds with
`incoming.generationId < current.generationId`, and none of the earlier
reconciliation branches fires (generationAllowed is not false, and the
mandatory-generation rule does not apply), `reconcile` discards incoming
entirely and returns `current` unchanged, for any other fields of incoming. -/
theorem c1_staleness_guard_amended (inc cur : Payload)
    (h1 : numTruthy inc.generationId = true)
    (h2 : numTruthy cur.generationId = true)
    (h3 : inc.generationId.getD 0 < cur.generationId.getD 0)
    (h4 : inc.generationAllowed ≠ some false)
    (h5 : ¬(isForcedPayload inc = true ∧ boolTruthy inc.requiresGeneration = true)) :
    reconcileTerminalState inc (some cur) = cur := by
  unfold reconcileTerminalState
  rw [if_neg (by simp [h1]), if_neg h4, if_neg h5, if_pos (by simpa using ⟨h2, h1, h3⟩)]
  simp

/-- C1 witness: the amended staleness guard at generation ids 3 and 5. -/
theorem c1_witness :
    numTruthy c1IncW.generationId = true ∧ numTruthy c1CurW.generationId = true ∧
    c1IncW.generationId.getD 0 < c1CurW.generationId.getD 0 ∧
    reconcileTerminalState c1IncW (some c1CurW) = c1CurW := by
  refine ⟨by decide, by decide, by decide, ?_⟩
  exact c1_staleness_guard_amended c1IncW c1CurW (by decide) (by decide) (by decide)
    (by decide) (by decide)

/-! ### Claim C2 -/

/-- C2: for source rect (0,0,1000,1000), target rect (0,0,500,2000), one layer
at (100,100,200,200), no overrides and scaleFactor 1, the transform maps the
position per axis to the source-relative fraction of the target rect
(x = 0.1 * 500 = 50, y = 0.1 * 2000 = 200) while width and height are scaled
only by the scalar scaleFactor (w = h = 200, no per-axis aspect correction). -/
theorem c2_end_to_end_mapping :
    (transformLayers c2Ctx [c2SourceLayer]).map TLayer.coords = [⟨50, 200, 200, 200⟩] := by
  simp [transformLayers, mapRootLayers, mapLayer, mapKids, c2Ctx, c2SourceLayer,
    getOverride, globalScaleOf, TLayer.coords]
  norm_num

/-! ### Claim C3 -/

/-- C3 counterexample: two feedback overrides with the same layerId, against an
empty base list.  The second entry has a layerId absent from the base list but
is NOT appended (the first append makes the id present), refuting "appends each
entry of F whose layerId is absent from B verbatim" for arbitrary F. -/
theorem c3_counterexample :
    c3o1.layerId = c3o2.layerId ∧ c3o1 ≠ c3o2 ∧
    c3o2.layerId ∉ (([] : List LayerOverride).map LayerOverride.layerId) ∧
    mergeOverrides [] [c3o1, c3o2] = [c3o1] ∧
    c3o2 ∉ mergeOverrides [] [c3o1, c3o2] := by
  decide

/-- C3 (amended): when the layerIds within B and within F are pairwise distinct,
the merged list keeps each base entry (updated from its matching feedback entry:
xOffset and yOffset replaced, individualScale replaced when present, while
layoutRole, linkedAnchorId, citedRule and layerId are preserved), appends each
feedback entry whose layerId is absent from B verbatim, and neither drops nor
duplicates any layerId from either set. -/
theorem c3_override_merge_amended (B F : List LayerOverride)
    (hB : (B.map LayerOverride.layerId).Nodup)
    (hF : (F.map LayerOverride.layerId).Nodup) :
    mergeOverrides B F =
      B.map (resolveBaseOverride F) ++
        F.filter (fun f => !(B.any (fun b => b.layerId == f.layerId))) ∧
    (∀ b ∈ B, ∀ f ∈ F, f.layerId = b.layerId →
      resolveBaseOverride F b =
        { b with
          xOffset := f.xOffset
          yOffset := f.yOffset
          individualScale := nullish f.individualScale b.individualScale }) ∧
    (∀ b : LayerOverride,
      (resolveBaseOverride F b).layoutRole = b.layoutRole ∧
      (resolveBaseOverride F b).linkedAnchorId = b.linkedAnchorId ∧
      (resolveBaseOverride F b).citedRule = b.citedRule ∧
      (resolveBaseOverride F b).layerId = b.layerId) ∧
    (∀ f ∈ F, (∀ b ∈ B, b.layerId ≠ f.layerId) → f ∈ mergeOverrides B F) ∧
    ((mergeOverrides B F).map LayerOverride.layerId).Nodup ∧
    (∀ x : String, x ∈ (mergeOverrides B F).map LayerOverride.layerId ↔
      x ∈ B.map LayerOverride.layerId ∨ x ∈ F.map LayerOverride.layerId) := by
  have hchar := mergeOverrides_eq B F hF
  have hids : (mergeOverrides B F).map LayerOverride.layerId =
      B.map LayerOverride.layerId ++
        (F.filter (fun f => !(B.any (fun b => b.layerId == f.layerId)))).map
          LayerOverride.layerId := by
    rw [hchar, List.map_append, mapResolve_ids]
  have hsubnodup :
      ((F.filter (fun f => !(B.any (fun b => b.layerId == f.layerId)))).map
        LayerOverride.layerId).Nodup :=
    List.Nodup.sublist (List.Sublist.map _ (List.filter_sublist F)) hF
  have hdisj : ∀ x ∈ B.map LayerOverride.layerId,
      x ∉ (F.filter (fun f => !(B.any (fun b => b.layerId == f.layerId)))).map
        LayerOverride.layerId := by
    intro x hxB hxF
    obtain ⟨f, hfmem, hfid⟩ := List.mem_map.mp hxF
    obtain ⟨hfF, hp⟩ := List.mem_filter.mp hfmem
    obtain ⟨b, hbB, hbid⟩ := List.mem_map.mp hxB
    simp only [Bool.not_eq_eq_eq_not, Bool.not_true, List.any_eq_false] at hp
    exact hp b hbB (by simp [hbid, hfid])
  refine ⟨hchar, ?_, ?_, ?_, ?_, ?_⟩
  · intro b _ f hf hid
    unfold resolveBaseOverride
    rw [feedbackLookup_of_nodup F hF f hf b.layerId hid]
    rfl
  · intro b
    exact ⟨(resolveBase_roles F b).1, (resolveBase_roles F b).2.1,
      (resolveBase_roles F b).2.2, resolveBase_id F b⟩
  · intro f hf hnone
    rw [hchar]
    refine List.mem_append_right _ (List.mem_filter.mpr ⟨hf, ?_⟩)
    simp only [Bool.not_eq_eq_eq_not, Bool.not_true, List.any_eq_false]
    intro b hb
    simp [hnone b hb]
  · rw [hids]
    exact List.Nodup.append hB hsubnodup hdisj
  · intro x
    rw [hids]
    constructor
    · intro hx
      rcases List.mem_append.mp hx with hl | hr
      · exact Or.inl hl
      · obtain ⟨f, hfmem, hfid⟩ := List.mem_map.mp hr
        exact Or.inr (hfid ▸ List.mem_map_of_mem _ (List.mem_filter.mp hfmem).1)
    · intro hx
      rcases hx with hl | hr
      · exact List.mem_append_left _ hl
      · by_cases hxB : x ∈ B.map LayerOverride.layerId
        · exact List.mem_append_left _ hxB
        · obtain ⟨f, hfF, hfid⟩ := List.mem_map.mp hr
          refine List.mem_append_right _ ?_
          refine List.mem_map.mpr ⟨f, List.mem_filter.mpr ⟨hfF, ?_⟩, hfid⟩
          simp only [Bool.not_eq_eq_eq_not, Bool.not_true, List.any_eq_false,
            beq_eq_false_iff_ne, ne_eq]
          intro b hb hcontra
          have heq : b.layerId = f.layerId := by simpa using hcontra
          exact hxB (by rw [← hfid, ← heq]; exact List.mem_map_of_mem _ hb)

/-- C3 witness: the amended merge at one shared-id pair plus one new override. -/
theorem c3_witness :
    (c3B.map LayerOverride.layerId).Nodup ∧ (c3F.map LayerOverride.layerId).Nodup ∧
    resolveBaseOverride c3F c3b1 =
      { c3b1 with
        xOffset := c3f1.xOffset
        yOffset := c3f1.yOffset
        individualScale := nullish c3f1.individualScale c3b1.individualScale } ∧
    (resolveBaseOverride c3F c3b1).layoutRole = c3b1.layoutRole ∧
    c3f2 ∈ mergeOverrides c3B c3F ∧
    ((mergeOverrides c3B c3F).map LayerOverride.layerId).Nodup := by
  have h := c3_override_merge_amended c3B c3F (by decide) (by decide)
  refine ⟨by decide, by decide, ?_, (h.2.2.1 c3b1).1, ?_, h.2.2.2.2.1⟩
  · exact h.2.1 c3b1 (by decide) c3f1 (by decide) (by decide)
  · exact h.2.2.2.1 c3f2 (by decide) (by decide)

/-! ### Claim C4 -/

/-- C4 counterexample: when `current` has no sourceReference but `incoming` has
one, the default inherit branch keeps the INCOMING sourceReference (the code
falls back with `current.sourceReference || incoming.sourceReference`), and
generationAllowed is forced to true rather than taken from incoming; so the
result does not inherit the whole listed bundle from current nor take all other
fields from incoming. -/
theorem c4_counterexample :
    c4IncX.status ≠ PStatus.idle ∧ numTruthy c4IncX.generationId = false ∧
    numTruthy c4CurX.generationId = true ∧ c4IncX.generationAllowed ≠ some false ∧
    isForcedPayload c4IncX = false ∧ boolTruthy c4IncX.isSynthesizing = false ∧
    c4CurX.sourceReference = none ∧ c4IncX.sourceReference = some "inc-ref" ∧
    (reconcileTerminalState c4IncX (some c4CurX)).sourceReference = some "inc-ref" ∧
    (reconcileTerminalState c4IncX (some c4CurX)).sourceReference ≠ c4CurX.sourceReference ∧
    c4IncX.generationAllowed = none ∧
    (reconcileTerminalState c4IncX (some c4CurX)).generationAllowed = some true := by
  decide

/-- C4 (amended): when incoming lacks a (nonzero) generationId, current has one,
and no earlier branch fires, the result takes previewUrl, generationId,
isSynthesizing, isConfirmed and isTransient from current; sourceReference from
current when current carries a truthy one and otherwise from incoming;
generationAllowed is forced to true; every other field comes from incoming. -/
theorem c4_geometry_inherit_amended (inc cur : Payload)
    (h1 : numTruthy inc.generationId = false)
    (h2 : numTruthy cur.generationId = true)
    (h3 : inc.status ≠ PStatus.idle)
    (h4 : inc.generationAllowed ≠ some false)
    (h5 : isForcedPayload inc = false)
    (h6 : boolTruthy inc.isSynthesizing = false) :
    reconcileTerminalState inc (some cur) =
      { inc with
        previewUrl := cur.previewUrl
        generationId := cur.generationId
        isSynthesizing := cur.isSynthesizing
        isConfirmed := cur.isConfirmed
        isTransient := cur.isTransient
        sourceReference := jsOrStr cur.sourceReference inc.sourceReference
        generationAllowed := some true } := by
  unfold reconcileTerminalState
  rw [if_neg (by simp [h3]), if_neg h4, if_neg (by simp [h5]), if_neg (by simp [h1]),
    if_neg h3, if_neg (by simp [h6]), if_pos (by simpa using ⟨h1, h2⟩)]

/-- C4 witness: a geometry-only recomputation inheriting a confirmed bundle. -/
theorem c4_witness :
    numTruthy c4IncW.generationId = false ∧ numTruthy c4CurW.generationId = true ∧
    reconcileTerminalState c4IncW (some c4CurW) =
      { c4IncW with
        previewUrl := c4CurW.previewUrl
        generationId := c4CurW.generationId
        isSynthesizing := c4CurW.isSynthesizing
        isConfirmed := c4CurW.isConfirmed
        isTransient := c4CurW.isTransient
        sourceReference := jsOrStr c4CurW.sourceReference c4IncW.sourceReference
        generationAllowed := some true } := by
  refine ⟨by decide, by decide, ?_⟩
  exact c4_geometry_inherit_amended c4IncW c4CurW (by decide) (by decide) (by decide)
    (by decide) (by decide) (by decide)

/-! ### Claim C5 -/

/-- C5: with preventClipping set, the solve ends with the boundary clamp: every
root-level layer not named in the feedback overrides gets
`x = max(minX, min(x, maxX))` and the analogous y (so, whenever the layer fits,
x lies in [targetRect.x, targetRect.x + targetRect.w - w]); layers named in the
feedback overrides are left untouched by the clamp; a layer of width exactly the
target width ends with x = targetRect.x. -/
theorem c5_boundary_clamp (ctx : MapCtx) (s : Strategy) (ls : List SLayer)
    (hs : ctx.strategy = some s) (hc : preventClippingSet s = true) :
    transformLayers ctx ls =
      (preClampState ctx ls).map (clampLayer ctx.feedback ctx.targetRect) ∧
    (∀ l : TLayer, inFeedback ctx.feedback l.id = true →
      clampLayer ctx.feedback ctx.targetRect l = l) ∧
    (∀ l : TLayer, inFeedback ctx.feedback l.id = false →
      (clampLayer ctx.feedback ctx.targetRect l).coords.x =
        max ctx.targetRect.x (min l.coords.x (ctx.targetRect.x + ctx.targetRect.w - l.coords.w)) ∧
      (clampLayer ctx.feedback ctx.targetRect l).coords.y =
        max ctx.targetRect.y (min l.coords.y (ctx.targetRect.y + ctx.targetRect.h - l.coords.h)) ∧
      (l.coords.w ≤ ctx.targetRect.w →
        ctx.targetRect.x ≤ (clampLayer ctx.feedback ctx.targetRect l).coords.x ∧
        (clampLayer ctx.feedback ctx.targetRect l).coords.x ≤
          ctx.targetRect.x + ctx.targetRect.w - l.coords.w) ∧
      (l.coords.w = ctx.targetRect.w →
        (clampLayer ctx.feedback ctx.targetRect l).coords.x = ctx.targetRect.x)) := by
  refine ⟨?_, ?_, ?_⟩
  · simp [transformLayers, hs, applyPhysics, boundarySolve, hc, preClampState]
  · intro l hl
    simp [clampLayer, hl]
  · intro l hl
    have hx : (clampLayer ctx.feedback ctx.targetRect l).coords.x =
        max ctx.targetRect.x (min l.coords.x (ctx.targetRect.x + ctx.targetRect.w - l.coords.w)) := by
      simp [clampLayer, hl]
    have hy : (clampLayer ctx.feedback ctx.targetRect l).coords.y =
        max ctx.targetRect.y (min l.coords.y (ctx.targetRect.y + ctx.targetRect.h - l.coords.h)) := by
      simp [clampLayer, hl]
    refine ⟨hx, hy, ?_, ?_⟩
    · intro hw
      constructor
      · rw [hx]
        exact le_max_left _ _
      · rw [hx]
        exact max_le (by linarith) (min_le_right _ _)
    · intro hw
      rw [hx, hw]
      have hself : ctx.targetRect.x + ctx.targetRect.w - ctx.targetRect.w = ctx.targetRect.x := by
        ring
      rw [hself]
      exact max_eq_left (min_le_right _ _)

/-- C5 witness: a manually edited layer is exempt from the clamp and a layer of
exactly the target width ends at the target origin. -/
theorem c5_witness :
    preventClippingSet c5S = true ∧
    transformLayers c5Ctx [] =
      (preClampState c5Ctx []).map (clampLayer c5Ctx.feedback c5Ctx.targetRect) ∧
    clampLayer c5Ctx.feedback c5Ctx.targetRect c5Manual = c5Manual ∧
    (clampLayer c5Ctx.feedback c5Ctx.targetRect c5Free).coords.x =
      max c5Ctx.targetRect.x
        (min c5Free.coords.x (c5Ctx.targetRect.x + c5Ctx.targetRect.w - c5Free.coords.w)) ∧
    (clampLayer c5Ctx.feedback c5Ctx.targetRect c5Exact).coords.x = c5Ctx.targetRect.x ∧
    c5Ctx.targetRect.x = 0 := by
  have h := c5_boundary_clamp c5Ctx c5S [] rfl (by decide)
  refine ⟨by decide, h.1, h.2.1 c5Manual (by decide), (h.2.2 c5Free (by decide)).1,
    (h.2.2 c5Exact (by decide)).2.2.2 (by decide), rfl⟩

/-! ### Claim C6 -/

/-- C6: with preventOverlap set, the collision solver is the single sweep over
the flow-or-free candidates sorted ascending by x written back at their indices;
after the sweep every adjacent pair in sorted order keeps a gap of at least the
previous width plus the padding of 10, and each swept candidate equals the
sweep step applied to the already-swept previous candidate: pushed to exactly
prev.x + prev.w + 10 when it started before that bound, left at its sorted
position otherwise. -/
theorem c6_collision_sweep (s : Strategy) (t : List TLayer)
    (h : preventOverlapSet s = true) :
    collisionSolve s t =
      t.enum.map (fun p =>
        match (collisionSweep (sortByX (collisionCandidates s t))).find?
            (fun q => q.1 == p.1) with
        | some q => q.2
        | none => p.2) ∧
    List.Chain' sweepGap (collisionSweep (sortByX (collisionCandidates s t))) ∧
    (∀ (k : ℕ) (a b : ℕ × TLayer),
      (collisionSweep (sortByX (collisionCandidates s t)))[k]? = some a →
      (sortByX (collisionCandidates s t))[k + 1]? = some b →
      (collisionSweep (sortByX (collisionCandidates s t)))[k + 1]? =
        some (b.1, sweepStep a.2 b.2) ∧
      (sweepStep a.2 b.2).coords.x =
        (if b.2.coords.x < a.2.coords.x + a.2.coords.w + collisionPadding
         then a.2.coords.x + a.2.coords.w + collisionPadding
         else b.2.coords.x)) := by
  refine ⟨by simp [collisionSolve, h], collisionSweep_chain _, ?_⟩
  intro k a b ha hb
  exact ⟨collisionSweep_get _ k a b ha hb, sweepStep_x a.2 b.2⟩

/-- C6 witness: two overlapping flow layers; the second is pushed to exactly
0 + 100 + 10 = 110. -/
theorem c6_witness :
    preventOverlapSet c6S = true ∧
    List.Chain' sweepGap (collisionSweep (sortByX (collisionCandidates c6S c6T))) ∧
    (collisionSweep (sortByX (collisionCandidates c6S c6T)))[1]? =
      some (1, sweepStep c6LayerA c6LayerB) ∧
    (sweepStep c6LayerA c6LayerB).coords.x = 110 := by
  have h := c6_collision_sweep c6S c6T (by decide)
  have hget := h.2.2 0 (0, c6LayerA) (1, c6LayerB) rfl rfl
  refine ⟨by decide, h.2.1, hget.1, ?_⟩
  rw [hget.2]
  norm_num [c6LayerA, c6LayerB, plainLayer, TLayer.coords, collisionPadding]

/-! ### Claim C7 -/

/-- C7: a visible standard (non-generative, non-group) leaf whose id does not
resolve to a source layer with a pixel canvas contributes exactly one
missing-buffer diagnostic to the trace and no paint event; compositing of the
surrounding layers still completes and the trace ends with the PNG export. -/
theorem c7_missing_buffer_skip (psd : PsdDoc) (p : Payload) (genOk : Bool)
    (l : TLayer) (xs ys : List TLayer)
    (hv : l.isVisible = true) (hk : l.kind = LKind.layer)
    (hb : hasBuffer psd l.id = false) :
    drawLayer (compositeEnv p psd genOk) l = [CEvent.diagMissingBuffer l.id] ∧
    compositeTrace { p with layers := xs ++ l :: ys } psd genOk =
      CEvent.matte (canvasDims p).w (canvasDims p).h
        :: (drawRootLayers (compositeEnv p psd genOk) xs
            ++ [CEvent.diagMissingBuffer l.id]
            ++ drawRootLayers (compositeEnv p psd genOk) ys
            ++ [CEvent.exportPng]) := by
  have h1 : drawLayer (compositeEnv p psd genOk) l = [CEvent.diagMissingBuffer l.id] := by
    cases l with
    | mk i n k v o c t r a cr g kids =>
      simp only [TLayer.isVisible] at hv
      simp only [TLayer.kind] at hk
      simp only [TLayer.id] at hb ⊢
      subst hv hk
      simp [drawLayer, compositeEnv, hb]
  refine ⟨h1, ?_⟩
  have henv : compositeEnv { p with layers := xs ++ l :: ys } psd genOk
      = compositeEnv p psd genOk := rfl
  have hdims : canvasDims { p with layers := xs ++ l :: ys } = canvasDims p := rfl
  simp only [compositeTrace, henv, hdims, drawRootLayers]
  simp [h1]

/-- C7 witness: the bad leaf resolves to no buffer, is skipped with one
diagnostic, and the surrounding composite still produces the export. -/
theorem c7_witness :
    c7Bad.isVisible = true ∧ c7Bad.kind = LKind.layer ∧
    hasBuffer c7Psd c7Bad.id = false ∧
    drawLayer (compositeEnv c7Payload c7Psd false) c7Bad =
      [CEvent.diagMissingBuffer c7Bad.id] ∧
    compositeTrace { c7Payload with layers := [c7Good] ++ c7Bad :: [] } c7Psd false =
      CEvent.matte (canvasDims c7Payload).w (canvasDims c7Payload).h
        :: (drawRootLayers (compositeEnv c7Payload c7Psd false) [c7Good]
            ++ [CEvent.diagMissingBuffer c7Bad.id]
            ++ drawRootLayers (compositeEnv c7Payload c7Psd false) []
            ++ [CEvent.exportPng]) := by
  have h := c7_missing_buffer_skip c7Psd c7Payload false c7Bad [c7Good] []
    (by decide) (by decide) (by decide)
  exact ⟨by decide, by decide, by decide, h.1, h.2⟩

/-! ### Claim C8 -/

/-- C8: a visible standard leaf with a pixel buffer is painted with global
alpha `effAlpha opacity`; an opacity of exactly 0 yields alpha 1 (full
visibility), and any other opacity is applied as `max 0 (min 1 opacity)`, i.e.
unchanged except for clamping into [0, 1]. -/
theorem c8_opacity_floor (env : CompEnv) (l : TLayer)
    (hv : l.isVisible = true) (hk : l.kind = LKind.layer)
    (hb : hasBuffer env.psd l.id = true) :
    drawLayer env l = [CEvent.paintPixels l.id (effAlpha l.opacity)
      (l.coords.x - env.originX) (l.coords.y - env.originY)
      l.coords.w l.coords.h (rotSet l.transform)] ∧
    effAlpha 0 = 1 ∧
    (∀ o : ℚ, o ≠ 0 → effAlpha o = max 0 (min 1 o)) := by
  refine ⟨?_, by simp [effAlpha], fun o ho => by simp [effAlpha, ho]⟩
  cases l with
  | mk i n k v o c t r a cr g kids =>
    simp only [TLayer.isVisible] at hv
    simp only [TLayer.kind] at hk
    simp only [TLayer.id] at hb ⊢
    subst hv hk
    simp [drawLayer, hb, TLayer.opacity, TLayer.coords, TLayer.transform]

/-- C8 witness: a visible leaf with opacity exactly 0 is painted, and its alpha
evaluates to 1. -/
theorem c8_witness :
    c8Layer.isVisible = true ∧ c8Layer.opacity = 0 ∧
    hasBuffer c8Env.psd c8Layer.id = true ∧
    drawLayer c8Env c8Layer = [CEvent.paintPixels c8Layer.id (effAlpha c8Layer.opacity)
      (c8Layer.coords.x - c8Env.originX) (c8Layer.coords.y - c8Env.originY)
      c8Layer.coords.w c8Layer.coords.h (rotSet c8Layer.transform)] ∧
    effAlpha c8Layer.opacity = 1 := by
  have h := c8_opacity_floor c8Env c8Layer (by decide) (by decide) (by decide)
  refine ⟨by decide, by decide, by decide, h.1, ?_⟩
  have hz : c8Layer.opacity = 0 := by decide
  rw [hz, h.2.1]

/-! ### Claim C9 -/

/-- C9: with preventClipping set, a non-feedback layer wider than the target
rect resolves the inverted clamp range to its minimum bound: its x becomes
exactly targetRect.x, and analogously y becomes targetRect.y when the layer is
taller than the target rect, because `max minX (min x maxX)` with maxX < minX
collapses to minX. -/
theorem c9_inverted_clamp (ctx : MapCtx) (s : Strategy) (ls : List SLayer)
    (hs : ctx.strategy = some s) (hc : preventClippingSet s = true) :
    transformLayers ctx ls =
      (preClampState ctx ls).map (clampLayer ctx.feedback ctx.targetRect) ∧
    (∀ l : TLayer, inFeedback ctx.feedback l.id = false →
      (ctx.targetRect.w < l.coords.w →
        (clampLayer ctx.feedback ctx.targetRect l).coords.x = ctx.targetRect.x) ∧
      (ctx.targetRect.h < l.coords.h →
        (clampLayer ctx.feedback ctx.targetRect l).coords.y = ctx.targetRect.y)) := by
  refine ⟨by simp [transformLayers, hs, applyPhysics, boundarySolve, hc, preClampState], ?_⟩
  intro l hl
  constructor
  · intro hw
    have hmin : min l.coords.x (ctx.targetRect.x + ctx.targetRect.w - l.coords.w) ≤
        ctx.targetRect.x := by
      calc min l.coords.x (ctx.targetRect.x + ctx.targetRect.w - l.coords.w)
          ≤ ctx.targetRect.x + ctx.targetRect.w - l.coords.w := min_le_right _ _
        _ ≤ ctx.targetRect.x := by linarith
    simp [clampLayer, hl, max_eq_left hmin]
  · intro hh
    have hmin : min l.coords.y (ctx.targetRect.y + ctx.targetRect.h - l.coords.h) ≤
        ctx.targetRect.y := by
      calc min l.coords.y (ctx.targetRect.y + ctx.targetRect.h - l.coords.h)
          ≤ ctx.targetRect.y + ctx.targetRect.h - l.coords.h := min_le_right _ _
        _ ≤ ctx.targetRect.y := by linarith
    simp [clampLayer, hl, max_eq_left hmin]

/-- C9 witness: a 600-wide, 500-tall layer in a 400 by 300 target at (20, 30)
ends at exactly the target origin. -/
theorem c9_witness :
    preventClippingSet c9S = true ∧
    c9Ctx.targetRect.w < c9Wide.coords.w ∧ c9Ctx.targetRect.h < c9Wide.coords.h ∧
    (clampLayer c9Ctx.feedback c9Ctx.targetRect c9Wide).coords.x = c9Ctx.targetRect.x ∧
    (clampLayer c9Ctx.feedback c9Ctx.targetRect c9Wide).coords.y = c9Ctx.targetRect.y ∧
    c9Ctx.targetRect.x = 20 ∧ c9Ctx.targetRect.y = 30 := by
  have h := c9_inverted_clamp c9Ctx c9S [] rfl (by decide)
  refine ⟨by decide, by decide, by decide,
    (h.2 c9Wide (by decide)).1 (by decide), (h.2 c9Wide (by decide)).2 (by decide), rfl, rfl⟩

/-! ### Claim C10 -/

/-- C10: when generation is disallowed (and the idle branch does not preempt),
the synthetic-generative filter is applied to the top level of incoming.layers
only: a top-level group survives whole, with any nested gen-layer children
intact, while a top-level generative layer with a gen-layer id is removed. -/
theorem c10_shallow_generative_filter (inc : Payload) (current : Option Payload)
    (h1 : inc.generationAllowed = some false)
    (h2 : ¬(inc.status = PStatus.idle ∧ numTruthy inc.generationId = false)) :
    (reconcileTerminalState inc current).layers =
      inc.layers.filter keepWhenGenerationDisabled ∧
    (∀ g ∈ inc.layers, g.kind = LKind.group →
      g ∈ (reconcileTerminalState inc current).layers) ∧
    (∀ l ∈ inc.layers, l.kind = LKind.generative →
      jsStartsWith l.id "gen-layer-" = true →
      l ∉ (reconcileTerminalState inc current).layers) := by
  unfold reconcileTerminalState
  rw [if_neg h2, if_pos h1]
  refine ⟨rfl, ?_, ?_⟩
  · intro g hg hkind
    simp only [List.mem_filter]
    exact ⟨hg, by simp [keepWhenGenerationDisabled, hkind]⟩
  · intro l hl hkind hsw
    simp only [List.mem_filter]
    rintro ⟨-, hkeep⟩
    simp [keepWhenGenerationDisabled, hkind, hsw] at hkeep

/-- C10 witness: the nested gen-layer child survives inside its group while the
top-level gen-layer is removed. -/
theorem c10_witness :
    c10Inc.generationAllowed = some false ∧
    (reconcileTerminalState c10Inc none).layers =
      c10Inc.layers.filter keepWhenGenerationDisabled ∧
    c10Grp ∈ (reconcileTerminalState c10Inc none).layers ∧
    c10TopGen ∉ (reconcileTerminalState c10Inc none).layers ∧
    (reconcileTerminalState c10Inc none).layers = [c10Grp] ∧
    c10Grp.children = TKids.some (TList.cons c10GenChild TList.nil) := by
  have h := c10_shallow_generative_filter c10Inc none rfl (by decide)
  refine ⟨rfl, h.1, ?_, ?_, rfl, rfl⟩
  · refine h.2.1 c10Grp ?_ rfl
    exact List.Mem.head _
  · refine h.2.2 c10TopGen ?_ rfl (by decide)
    exact List.Mem.tail _ (List.Mem.head _)

end PSD
